import Mathlib

/-!
# Verification of `rest_framework_simplejwt/views.py`

A shallow embedding of the token-view layer of this repository: the four
token POST operations (obtain / refresh / verify / blacklist), the cookie
transport mixins for refresh-pair and sliding deployments, and the cookie
deletion (logout) view.

Modelling conventions:
* Python dicts used as string-to-string maps (`request.data`,
  `request.COOKIES`, validated payloads) are association lists.
* Timestamps are integers (seconds); `datetime.now()` is an explicit `now`
  parameter; a `timedelta` setting is an integer number of seconds.
* `api_settings.AUTH_COOKIE` is a string; the empty string models the
  unset (`None`, falsy) setting, matching Python truthiness in
  `if api_settings.AUTH_COOKIE:`.
* The external token primitive (`RefreshToken(raw).payload["exp"]`) is an
  abstract environment `TokenEnv : String → Option Int`; `none` models a
  raised `TokenError`.
* Serializers are abstract functions `Dict → SerializerResult`; serializer
  classes live outside the provided source, so theorems quantify over them
  (or, where a claim needs the verify serializer's behaviour, use a
  definition modelled from the spec).
* An uncaught Python exception outside the dispatcher's `try` block
  (e.g. a `KeyError` on `data["access"]`) is the outcome `crash`.
-/

/-- A Python `dict` with string keys and values, as an association list. -/
abbrev Dict := List (String × String)

/-- `d.get(k)` / `d[k]` lookup on a Python dict. -/
def dget (d : Dict) (k : String) : Option String :=
  (d.find? (fun p => p.1 == k)).map Prod.snd

/-- `d[k] = v` assignment on a Python dict: overwrite if present, else append. -/
def dset (d : Dict) (k v : String) : Dict :=
  if (d.find? (fun p => p.1 == k)).isSome then
    d.map (fun p => if p.1 == k then (k, v) else p)
  else
    d ++ [(k, v)]

/-- The deployment configuration consumed by the views (`api_settings`). -/
structure ApiSettings where
  AUTH_COOKIE : String
  AUTH_COOKIE_DOMAIN : Option String
  AUTH_COOKIE_PATH : String
  AUTH_COOKIE_SECURE : Bool
  AUTH_COOKIE_SAMESITE : String
  ROTATE_REFRESH_TOKENS : Bool
  REFRESH_TOKEN_LIFETIME : Int
  ACCESS_TOKEN_LIFETIME : Int
  deriving Repr, DecidableEq

/-- A cookie as written onto a Django response by `response.set_cookie`.
`secure` records the effective flag: the source passes
`api_settings.AUTH_COOKIE_SECURE or None`, and `None` and `False` both
render no `Secure` attribute. -/
structure Cookie where
  name : String
  value : String
  expires : Option Int
  domain : Option String
  path : String
  secure : Bool
  httponly : Bool
  samesite : Option String
  deriving Repr, DecidableEq

/-- A DRF `Response`: JSON body, HTTP status, and the cookies set on it. -/
structure Response where
  body : Dict
  status : Nat
  cookies : List Cookie
  deriving Repr, DecidableEq

/-- `response.set_cookie(...)` appends a cookie to the response. -/
def Response.set_cookie (r : Response) (c : Cookie) : Response :=
  { r with cookies := r.cookies ++ [c] }

/-- Django's `response.delete_cookie(key, domain, path)`: sets a cookie with
empty value and the already-expired timestamp
`Thu, 01 Jan 1970 00:00:00 GMT` (epoch 0), with the given domain and path.
(Django marks the deletion cookie `secure` only for `__Secure-`/`__Host-`
prefixed names, and passes no samesite/httponly.) -/
def Response.delete_cookie (r : Response) (key : String) (domain : Option String)
    (path : String) : Response :=
  r.set_cookie
    { name := key, value := "", expires := some 0, domain := domain, path := path,
      secure := key.startsWith "__Secure-" || key.startsWith "__Host-",
      httponly := false, samesite := none }

/-- A DRF `Request`: parsed body `data` and the cookie jar `COOKIES`. -/
structure Request where
  data : Dict
  COOKIES : Dict
  deriving Repr, DecidableEq

/-- The request-level errors raised by the views. -/
inductive ApiError where
  | InvalidToken (detail : String)
  | NotAuthenticated (detail : String)
  | ValidationError (detail : String)
  deriving Repr, DecidableEq

/-- Outcome of `serializer.is_valid(raise_exception=True)` followed by
reading `validated_data`: success with the validated payload, a raised
`TokenError`, or any other `ValidationError`. -/
inductive SerializerResult where
  | ok (validated_data : Dict)
  | tokenError (detail : String)
  | failure (detail : String)
  deriving Repr, DecidableEq

/-- Outcome of a view's `post`: a response (with whether
`csrf.get_token` was invoked), a raised API error, or an uncaught
exception (crash). -/
inductive PostOutcome where
  | success (response : Response) (csrfIssued : Bool)
  | error (e : ApiError)
  | crash
  deriving Repr, DecidableEq

/-- The external token primitive: `RefreshToken(raw).payload["exp"]`.
`none` models the constructor raising `TokenError`. -/
abbrev TokenEnv := String → Option Int

namespace TokenViewBase

/-- `TokenViewBase.post` (views.py lines 50-64): validate the request body
through the serializer, translating `TokenError` into `InvalidToken`; on
success build a 200 response with the validated data and, only when
`AUTH_COOKIE` is configured, issue a CSRF token and delegate to
`set_auth_cookies`. The view's `set_auth_cookies` is a parameter;
`none` models it raising an uncaught exception. -/
def post (cfg : ApiSettings) (serializer : Dict → SerializerResult)
    (set_auth_cookies : Response → Dict → Option Response)
    (req : Request) : PostOutcome :=
  match serializer req.data with
  | .tokenError d => .error (.InvalidToken d)
  | .failure d => .error (.ValidationError d)
  | .ok data =>
    let response : Response := { body := data, status := 200, cookies := [] }
    if cfg.AUTH_COOKIE ≠ "" then
      match set_auth_cookies response data with
      | some r => .success r true
      | none => .crash
    else
      .success response false

/-- `TokenViewBase.set_auth_cookies` (views.py lines 66-67): returns the
response unchanged. -/
def set_auth_cookies (response : Response) (_data : Dict) : Option Response :=
  some response

end TokenViewBase

namespace TokenCookieViewMixin

/-- `TokenCookieViewMixin.extract_token_from_cookie` (views.py lines
83-91): when `request.data` is falsy (empty), read the cookie named
`AUTH_COOKIE + "_refresh"`; raise `NotAuthenticated` when it is missing or
falsy (empty string), else inject it into the body under `"refresh"`.
A truthy (non-empty) body passes through unchanged. -/
def extract_token_from_cookie (cfg : ApiSettings) (req : Request) :
    Except ApiError Request :=
  if req.data.isEmpty then
    match dget req.COOKIES (cfg.AUTH_COOKIE ++ "_refresh") with
    | none => .error (.NotAuthenticated "Refresh cookie not set. Try to authenticate first.")
    | some token =>
      if token = "" then
        .error (.NotAuthenticated "Refresh cookie not set. Try to authenticate first.")
      else
        .ok { req with data := dset req.data "refresh" token }
  else
    .ok req

/-- `TokenCookieViewMixin.set_auth_cookies` (views.py lines 93-114): one
expiration `expires` (the view's `get_refresh_token_expiration()`) is used
for both cookies. The access cookie is written from `data["access"]`
(`none` when the key is missing, a `KeyError`); the refresh cookie, at the
refresh endpoint's route `refreshRoute` (`reverse(token_refresh_view_name)`),
only when `"refresh"` is in `data`. -/
def set_auth_cookies (cfg : ApiSettings) (refreshRoute : String) (expires : Int)
    (response : Response) (data : Dict) : Option Response :=
  match dget data "access" with
  | none => none
  | some access =>
    let response := response.set_cookie
      { name := cfg.AUTH_COOKIE, value := access, expires := some expires,
        domain := cfg.AUTH_COOKIE_DOMAIN, path := cfg.AUTH_COOKIE_PATH,
        secure := cfg.AUTH_COOKIE_SECURE, httponly := true,
        samesite := some cfg.AUTH_COOKIE_SAMESITE }
    match dget data "refresh" with
    | none => some response
    | some refresh =>
      some (response.set_cookie
        { name := cfg.AUTH_COOKIE ++ "_refresh", value := refresh,
          expires := some expires, domain := cfg.AUTH_COOKIE_DOMAIN,
          path := refreshRoute, secure := cfg.AUTH_COOKIE_SECURE,
          httponly := true, samesite := some cfg.AUTH_COOKIE_SAMESITE })

/-- `TokenCookieViewMixin.get_refresh_token_expiration` (views.py lines
116-117): `datetime.now() + REFRESH_TOKEN_LIFETIME`. -/
def get_refresh_token_expiration (cfg : ApiSettings) (now : Int) : Int :=
  now + cfg.REFRESH_TOKEN_LIFETIME

end TokenCookieViewMixin

namespace TokenRefreshView

/-- `TokenRefreshView.get_refresh_token_expiration` (views.py lines
143-147): with rotation, `now + REFRESH_TOKEN_LIFETIME`; without, re-parse
`self.request.data["refresh"]` through the token primitive and return its
`exp` claim. `none` models the uncaught `KeyError`/`TokenError`. -/
def get_refresh_token_expiration (cfg : ApiSettings) (env : TokenEnv) (now : Int)
    (requestData : Dict) : Option Int :=
  if cfg.ROTATE_REFRESH_TOKENS then
    some (TokenCookieViewMixin.get_refresh_token_expiration cfg now)
  else
    match dget requestData "refresh" with
    | none => none
    | some raw => env raw

/-- `TokenRefreshView.post`, assembled from `TokenRefreshViewBase.post`
(views.py lines 74-77: cookie extraction first, only when `AUTH_COOKIE` is
configured) and `TokenViewBase.post` with this view's `set_auth_cookies`
and `get_refresh_token_expiration` (which reads the post-extraction
`self.request.data`). -/
def post (cfg : ApiSettings) (env : TokenEnv) (refreshRoute : String) (now : Int)
    (serializer : Dict → SerializerResult) (req : Request) : PostOutcome :=
  let step := fun (req2 : Request) =>
    TokenViewBase.post cfg serializer
      (fun resp data =>
        match get_refresh_token_expiration cfg env now req2.data with
        | none => none
        | some expires =>
          TokenCookieViewMixin.set_auth_cookies cfg refreshRoute expires resp data)
      req2
  if cfg.AUTH_COOKIE ≠ "" then
    match TokenCookieViewMixin.extract_token_from_cookie cfg req with
    | .error e => .error e
    | .ok req2 => step req2
  else
    step req

end TokenRefreshView

namespace TokenObtainPairView

/-- `TokenObtainPairView.post`: `TokenViewBase.post` with the pair-cookie
mixin's `set_auth_cookies`, whose expiration is the mixin's
`get_refresh_token_expiration` (`now + REFRESH_TOKEN_LIFETIME`). -/
def post (cfg : ApiSettings) (refreshRoute : String) (now : Int)
    (serializer : Dict → SerializerResult) (req : Request) : PostOutcome :=
  TokenViewBase.post cfg serializer
    (fun resp data =>
      TokenCookieViewMixin.set_auth_cookies cfg refreshRoute
        (TokenCookieViewMixin.get_refresh_token_expiration cfg now) resp data)
    req

end TokenObtainPairView

namespace SlidingTokenCookieViewMixin

/-- `SlidingTokenCookieViewMixin.extract_token_from_cookie` (views.py lines
154-162): like the pair mixin but the cookie name is exactly `AUTH_COOKIE`
(no suffix) and the value is injected under `"token"`. -/
def extract_token_from_cookie (cfg : ApiSettings) (req : Request) :
    Except ApiError Request :=
  if req.data.isEmpty then
    match dget req.COOKIES cfg.AUTH_COOKIE with
    | none => .error (.NotAuthenticated "Refresh cookie not set. Try to authenticate first.")
    | some token =>
      if token = "" then
        .error (.NotAuthenticated "Refresh cookie not set. Try to authenticate first.")
      else
        .ok { req with data := dset req.data "token" token }
  else
    .ok req

/-- `SlidingTokenCookieViewMixin.set_auth_cookies` (views.py lines
164-174): writes the single sliding cookie named `AUTH_COOKIE` from
`data["token"]` with expiration `now + REFRESH_TOKEN_LIFETIME`. -/
def set_auth_cookies (cfg : ApiSettings) (now : Int)
    (response : Response) (data : Dict) : Option Response :=
  match dget data "token" with
  | none => none
  | some token =>
    some (response.set_cookie
      { name := cfg.AUTH_COOKIE, value := token,
        expires := some (now + cfg.REFRESH_TOKEN_LIFETIME),
        domain := cfg.AUTH_COOKIE_DOMAIN, path := cfg.AUTH_COOKIE_PATH,
        secure := cfg.AUTH_COOKIE_SECURE, httponly := true,
        samesite := some cfg.AUTH_COOKIE_SAMESITE })

end SlidingTokenCookieViewMixin

namespace TokenRefreshSlidingView

/-- `TokenRefreshSlidingView.post`: `TokenRefreshViewBase.post` with the
sliding mixin's extraction and cookie writing. -/
def post (cfg : ApiSettings) (now : Int)
    (serializer : Dict → SerializerResult) (req : Request) : PostOutcome :=
  let step := fun (req2 : Request) =>
    TokenViewBase.post cfg serializer
      (SlidingTokenCookieViewMixin.set_auth_cookies cfg now) req2
  if cfg.AUTH_COOKIE ≠ "" then
    match SlidingTokenCookieViewMixin.extract_token_from_cookie cfg req with
    | .error e => .error e
    | .ok req2 => step req2
  else
    step req

end TokenRefreshSlidingView

namespace TokenObtainSlidingView

/-- `TokenObtainSlidingView.post`: `TokenViewBase.post` with the sliding
mixin's `set_auth_cookies`. -/
def post (cfg : ApiSettings) (now : Int)
    (serializer : Dict → SerializerResult) (req : Request) : PostOutcome :=
  TokenViewBase.post cfg serializer
    (SlidingTokenCookieViewMixin.set_auth_cookies cfg now) req

end TokenObtainSlidingView

namespace TokenVerifyView

/-- `TokenVerifyView.post`: `TokenViewBase.post` with the base (identity)
`set_auth_cookies` — the view adds no cookie mixin. -/
def post (cfg : ApiSettings) (serializer : Dict → SerializerResult)
    (req : Request) : PostOutcome :=
  TokenViewBase.post cfg serializer TokenViewBase.set_auth_cookies req

end TokenVerifyView

/-- Modelled from the spec: the token-verify serializer (class
`rest_framework_simplejwt.serializers.TokenVerifySerializer`, not under
the provided source). Per the spec: "Verify: input = any token string.
Succeeds with an empty payload if the token verifies (decodable,
unexpired, not blacklisted); otherwise fails with InvalidToken" — the
failure surfaces as a `TokenError` that `post` translates. `valid` is the
abstract external verification predicate. -/
def verifySerializer (valid : String → Bool) (data : Dict) : SerializerResult :=
  match dget data "token" with
  | none => .failure "This field is required."
  | some t => if valid t then .ok [] else .tokenError "Token is invalid or expired"

namespace TokenCookieDeleteView

/-- `TokenCookieDeleteView.delete_auth_cookies` (views.py lines 230-240):
delete the access/sliding cookie with the configured domain and path, and
the refresh cookie with `domain=None` and the refresh endpoint's route. -/
def delete_auth_cookies (cfg : ApiSettings) (refreshRoute : String)
    (response : Response) : Response :=
  (response.delete_cookie cfg.AUTH_COOKIE cfg.AUTH_COOKIE_DOMAIN cfg.AUTH_COOKIE_PATH).delete_cookie
    (cfg.AUTH_COOKIE ++ "_refresh") none refreshRoute

/-- `TokenCookieDeleteView.post` (views.py lines 222-228): a 200 response
with empty body; delete the auth cookies only when `AUTH_COOKIE` is
configured. -/
def post (cfg : ApiSettings) (refreshRoute : String) : Response :=
  let response : Response := { body := [], status := 200, cookies := [] }
  if cfg.AUTH_COOKIE ≠ "" then
    delete_auth_cookies cfg refreshRoute response
  else
    response

end TokenCookieDeleteView

/-! ## Concrete fixtures used by witnesses and counterexamples -/

/-- A configuration with cookie transport enabled and rotation on. -/
def cfgW : ApiSettings :=
  { AUTH_COOKIE := "auth", AUTH_COOKIE_DOMAIN := some "example.com",
    AUTH_COOKIE_PATH := "/api", AUTH_COOKIE_SECURE := true,
    AUTH_COOKIE_SAMESITE := "Lax", ROTATE_REFRESH_TOKENS := true,
    REFRESH_TOKEN_LIFETIME := 86400, ACCESS_TOKEN_LIFETIME := 300 }

/-- The same configuration with rotation disabled. -/
def cfgNoRotate : ApiSettings := { cfgW with ROTATE_REFRESH_TOKENS := false }

/-- A token environment in which the raw token `"R1"` parses with `exp = 5000`. -/
def envW : TokenEnv := fun s => if s = "R1" then some 5000 else none

/-- A refresh serializer output fixture: new access token, refresh echoed. -/
def serW : Dict → SerializerResult := fun _ => .ok [("access", "A2"), ("refresh", "R1")]

/-- An empty-body request carrying the refresh cookie. -/
def reqW : Request := { data := [], COOKIES := [("auth_refresh", "R1")] }

/-- `reqW` after cookie extraction injected the refresh token into the body. -/
def reqW2 : Request := { data := [("refresh", "R1")], COOKIES := [("auth_refresh", "R1")] }

/-! ## Claims -/

/-- C4: for every POST through the shared dispatcher, a `TokenError` raised
by serializer validation surfaces as `InvalidToken` carrying the original
detail; on successful validation the view returns HTTP 200 with the
validated payload, and cookie delivery together with CSRF issuance happens
if and only if `AUTH_COOKIE` is configured. -/
theorem C4_post_dispatch_contract (cfg : ApiSettings)
    (serializer : Dict → SerializerResult)
    (sac : Response → Dict → Option Response) (req : Request) :
    (∀ d, serializer req.data = .tokenError d →
      TokenViewBase.post cfg serializer sac req = .error (.InvalidToken d)) ∧
    (∀ data resp, serializer req.data = .ok data →
      sac { body := data, status := 200, cookies := [] } data = some resp →
      TokenViewBase.post cfg serializer sac req =
        if cfg.AUTH_COOKIE ≠ "" then .success resp true
        else .success { body := data, status := 200, cookies := [] } false) := by
  constructor
  · intro d hd
    simp [TokenViewBase.post, hd]
  · intro data resp hdata hsac
    by_cases hc : cfg.AUTH_COOKIE ≠ ""
    · simp [TokenViewBase.post, hdata, hc, hsac]
    · simp [TokenViewBase.post, hdata, hc]

/-- Witness for C4 at concrete inputs: a token error is translated, and a
successful validation with cookie transport configured returns 200 with
cookies delivered and CSRF issued. -/
theorem C4_witness :
    TokenViewBase.post cfgW (fun _ => .tokenError "bad") (fun r _ => some r)
      { data := [], COOKIES := [] } = .error (.InvalidToken "bad") ∧
    TokenViewBase.post cfgW (fun _ => .ok [("access", "A")]) (fun r _ => some r)
      { data := [], COOKIES := [] } =
      if cfgW.AUTH_COOKIE ≠ "" then
        .success { body := [("access", "A")], status := 200, cookies := [] } true
      else
        .success { body := [("access", "A")], status := 200, cookies := [] } false :=
  ⟨(C4_post_dispatch_contract cfgW (fun _ => .tokenError "bad") (fun r _ => some r)
      { data := [], COOKIES := [] }).1 "bad" rfl,
   (C4_post_dispatch_contract cfgW (fun _ => .ok [("access", "A")]) (fun r _ => some r)
      { data := [], COOKIES := [] }).2 [("access", "A")]
      { body := [("access", "A")], status := 200, cookies := [] } rfl rfl⟩

/-- C5: in cookie transport mode with an empty request body, a missing
auth cookie makes extraction fail with `NotAuthenticated` directing the
caller to authenticate first, and a present cookie has its value injected
into the body (under `"refresh"` for the pair mixin, `"token"` for the
sliding mixin) so the request proceeds. -/
theorem C5_missing_credential (cfg : ApiSettings) (req : Request)
    (h : req.data = []) :
    (dget req.COOKIES (cfg.AUTH_COOKIE ++ "_refresh") = none →
      TokenCookieViewMixin.extract_token_from_cookie cfg req =
        .error (.NotAuthenticated "Refresh cookie not set. Try to authenticate first.")) ∧
    (∀ t, dget req.COOKIES (cfg.AUTH_COOKIE ++ "_refresh") = some t → t ≠ "" →
      TokenCookieViewMixin.extract_token_from_cookie cfg req =
        .ok { req with data := [("refresh", t)] }) ∧
    (dget req.COOKIES cfg.AUTH_COOKIE = none →
      SlidingTokenCookieViewMixin.extract_token_from_cookie cfg req =
        .error (.NotAuthenticated "Refresh cookie not set. Try to authenticate first.")) ∧
    (∀ t, dget req.COOKIES cfg.AUTH_COOKIE = some t → t ≠ "" →
      SlidingTokenCookieViewMixin.extract_token_from_cookie cfg req =
        .ok { req with data := [("token", t)] }) := by
  refine ⟨?_, ?_, ?_, ?_⟩
  · intro hnone
    simp [TokenCookieViewMixin.extract_token_from_cookie, h, hnone]
  · intro t ht htne
    simp [TokenCookieViewMixin.extract_token_from_cookie, h, ht, htne, dset]
  · intro hnone
    simp [SlidingTokenCookieViewMixin.extract_token_from_cookie, h, hnone]
  · intro t ht htne
    simp [SlidingTokenCookieViewMixin.extract_token_from_cookie, h, ht, htne, dset]

/-- Witness for C5: with `cfgW` and an empty body, a missing cookie fails
with `NotAuthenticated`, and the present `auth_refresh` cookie of `reqW`
is injected under `"refresh"`. -/
theorem C5_witness :
    TokenCookieViewMixin.extract_token_from_cookie cfgW
      { data := [], COOKIES := [] } =
      .error (.NotAuthenticated "Refresh cookie not set. Try to authenticate first.") ∧
    TokenCookieViewMixin.extract_token_from_cookie cfgW reqW =
      .ok { reqW with data := [("refresh", "R1")] } :=
  ⟨(C5_missing_credential cfgW { data := [], COOKIES := [] } rfl).1 rfl,
   (C5_missing_credential cfgW reqW rfl).2.1 "R1" (by decide) (by decide)⟩

/-- C9: the verify operation is side-effect-free: on a valid token it
returns 200 with an empty payload and writes no cookie (the base
`set_auth_cookies` returns the response unchanged), and on an invalid
token it fails with `InvalidToken`. The verify serializer is modelled
from the spec. -/
theorem C9_verify_side_effect_free (cfg : ApiSettings) (valid : String → Bool)
    (req : Request) (t : String) (ht : dget req.data "token" = some t) :
    (valid t = true →
      ∃ b, TokenVerifyView.post cfg (verifySerializer valid) req =
        .success { body := [], status := 200, cookies := [] } b) ∧
    (valid t = false →
      TokenVerifyView.post cfg (verifySerializer valid) req =
        .error (.InvalidToken "Token is invalid or expired")) := by
  constructor
  · intro hv
    by_cases hc : cfg.AUTH_COOKIE ≠ ""
    · exact ⟨true, by
        simp [TokenVerifyView.post, TokenViewBase.post, verifySerializer, ht, hv, hc,
          TokenViewBase.set_auth_cookies]⟩
    · exact ⟨false, by
        simp [TokenVerifyView.post, TokenViewBase.post, verifySerializer, ht, hv, hc,
          TokenViewBase.set_auth_cookies]⟩
  · intro hv
    simp [TokenVerifyView.post, TokenViewBase.post, verifySerializer, ht, hv]

/-- Witness for C9: with cookie transport configured, verifying the token
`"T"` under a validity predicate accepting exactly `"T"` yields an empty
200 response with no cookies; verifying `"bad"` yields `InvalidToken`. -/
theorem C9_witness :
    (∃ b, TokenVerifyView.post cfgW (verifySerializer (fun s => s = "T"))
        { data := [("token", "T")], COOKIES := [] } =
      .success { body := [], status := 200, cookies := [] } b) ∧
    TokenVerifyView.post cfgW (verifySerializer (fun s => s = "T"))
      { data := [("token", "bad")], COOKIES := [] } =
      .error (.InvalidToken "Token is invalid or expired") :=
  ⟨(C9_verify_side_effect_free cfgW (fun s => s = "T")
      { data := [("token", "T")], COOKIES := [] } "T" rfl).1 (by decide),
   (C9_verify_side_effect_free cfgW (fun s => s = "T")
      { data := [("token", "bad")], COOKIES := [] } "bad" rfl).2 (by decide)⟩

/-- C6: when both tokens are present in the validated payload, the pair
mixin writes the access cookie at the configured cookie path and the
refresh cookie at the refresh endpoint's route — the two paths are set
independently, scoping the refresh credential to the refresh endpoint. -/
theorem C6_refresh_cookie_path_scoped (cfg : ApiSettings) (refreshRoute : String)
    (expires : Int) (resp : Response) (data : Dict) (a r : String)
    (ha : dget data "access" = some a) (hr : dget data "refresh" = some r) :
    ∃ ca cr : Cookie,
      TokenCookieViewMixin.set_auth_cookies cfg refreshRoute expires resp data =
        some { resp with cookies := resp.cookies ++ [ca, cr] } ∧
      ca.name = cfg.AUTH_COOKIE ∧ ca.path = cfg.AUTH_COOKIE_PATH ∧
      cr.name = cfg.AUTH_COOKIE ++ "_refresh" ∧ cr.path = refreshRoute := by
  refine ⟨{ name := cfg.AUTH_COOKIE, value := a, expires := some expires,
            domain := cfg.AUTH_COOKIE_DOMAIN, path := cfg.AUTH_COOKIE_PATH,
            secure := cfg.AUTH_COOKIE_SECURE, httponly := true,
            samesite := some cfg.AUTH_COOKIE_SAMESITE },
          { name := cfg.AUTH_COOKIE ++ "_refresh", value := r, expires := some expires,
            domain := cfg.AUTH_COOKIE_DOMAIN, path := refreshRoute,
            secure := cfg.AUTH_COOKIE_SECURE, httponly := true,
            samesite := some cfg.AUTH_COOKIE_SAMESITE }, ?_, rfl, rfl, rfl, rfl⟩
  simp [TokenCookieViewMixin.set_auth_cookies, ha, hr, Response.set_cookie]

/-- Witness for C6: concrete payload with access and refresh values under
`cfgW`; the access cookie sits at `"/api"` and the refresh cookie at the
refresh route. -/
theorem C6_witness :
    ∃ ca cr : Cookie,
      TokenCookieViewMixin.set_auth_cookies cfgW "/api/token/refresh/" 1000
        { body := [], status := 200, cookies := [] }
        [("access", "A"), ("refresh", "R")] =
        some { body := [], status := 200, cookies := [] ++ [ca, cr] } ∧
      ca.name = cfgW.AUTH_COOKIE ∧ ca.path = cfgW.AUTH_COOKIE_PATH ∧
      cr.name = cfgW.AUTH_COOKIE ++ "_refresh" ∧ cr.path = "/api/token/refresh/" :=
  C6_refresh_cookie_path_scoped cfgW "/api/token/refresh/" 1000
    { body := [], status := 200, cookies := [] }
    [("access", "A"), ("refresh", "R")] "A" "R" rfl rfl

/-- C7: every auth cookie written by the pair or sliding mixin carries
`httponly = true`, the configured domain and samesite, and the secure flag
per `AUTH_COOKIE_SECURE`; the access cookie is written whenever the
payload holds an access value, and the refresh cookie exactly when the
payload holds a refresh value. -/
theorem C7_cookie_attributes (cfg : ApiSettings) (refreshRoute : String)
    (expires now : Int) (data : Dict) (resp : Response) :
    (∀ a, dget data "access" = some a →
      ∃ resp2, TokenCookieViewMixin.set_auth_cookies cfg refreshRoute expires resp data =
          some resp2 ∧
        (∀ c ∈ resp2.cookies.drop resp.cookies.length,
          c.httponly = true ∧ c.domain = cfg.AUTH_COOKIE_DOMAIN ∧
          c.samesite = some cfg.AUTH_COOKIE_SAMESITE ∧ c.secure = cfg.AUTH_COOKIE_SECURE) ∧
        (∃ c ∈ resp2.cookies.drop resp.cookies.length,
          c.name = cfg.AUTH_COOKIE ∧ c.value = a) ∧
        (∀ r, dget data "refresh" = some r →
          ∃ c ∈ resp2.cookies.drop resp.cookies.length,
            c.name = cfg.AUTH_COOKIE ++ "_refresh" ∧ c.value = r) ∧
        (dget data "refresh" = none →
          (resp2.cookies.drop resp.cookies.length).length = 1)) ∧
    (∀ t, dget data "token" = some t →
      ∃ resp3, SlidingTokenCookieViewMixin.set_auth_cookies cfg now resp data =
          some resp3 ∧
        ∀ c ∈ resp3.cookies.drop resp.cookies.length,
          c.httponly = true ∧ c.domain = cfg.AUTH_COOKIE_DOMAIN ∧
          c.samesite = some cfg.AUTH_COOKIE_SAMESITE ∧ c.secure = cfg.AUTH_COOKIE_SECURE) := by
  constructor
  · intro a ha
    cases hr : dget data "refresh" with
    | none =>
      refine ⟨resp.set_cookie
          { name := cfg.AUTH_COOKIE, value := a, expires := some expires,
            domain := cfg.AUTH_COOKIE_DOMAIN, path := cfg.AUTH_COOKIE_PATH,
            secure := cfg.AUTH_COOKIE_SECURE, httponly := true,
            samesite := some cfg.AUTH_COOKIE_SAMESITE }, ?_, ?_, ?_, ?_, ?_⟩
      · simp [TokenCookieViewMixin.set_auth_cookies, ha, hr]
      · intro c hc
        simp [Response.set_cookie] at hc
        simp [hc]
      · refine ⟨{ name := cfg.AUTH_COOKIE, value := a, expires := some expires,
                  domain := cfg.AUTH_COOKIE_DOMAIN, path := cfg.AUTH_COOKIE_PATH,
                  secure := cfg.AUTH_COOKIE_SECURE, httponly := true,
                  samesite := some cfg.AUTH_COOKIE_SAMESITE }, ?_, rfl, rfl⟩
        simp [Response.set_cookie]
      · intro r hr2
        exact absurd hr2 (by simp)
      · intro _
        simp [Response.set_cookie]
    | some r =>
      refine ⟨(resp.set_cookie
          { name := cfg.AUTH_COOKIE, value := a, expires := some expires,
            domain := cfg.AUTH_COOKIE_DOMAIN, path := cfg.AUTH_COOKIE_PATH,
            secure := cfg.AUTH_COOKIE_SECURE, httponly := true,
            samesite := some cfg.AUTH_COOKIE_SAMESITE }).set_cookie
          { name := cfg.AUTH_COOKIE ++ "_refresh", value := r, expires := some expires,
            domain := cfg.AUTH_COOKIE_DOMAIN, path := refreshRoute,
            secure := cfg.AUTH_COOKIE_SECURE, httponly := true,
            samesite := some cfg.AUTH_COOKIE_SAMESITE }, ?_, ?_, ?_, ?_, ?_⟩
      · simp [TokenCookieViewMixin.set_auth_cookies, ha, hr]
      · intro c hc
        simp [Response.set_cookie] at hc
        rcases hc with hc | hc <;> simp [hc]
      · refine ⟨{ name := cfg.AUTH_COOKIE, value := a, expires := some expires,
                  domain := cfg.AUTH_COOKIE_DOMAIN, path := cfg.AUTH_COOKIE_PATH,
                  secure := cfg.AUTH_COOKIE_SECURE, httponly := true,
                  samesite := some cfg.AUTH_COOKIE_SAMESITE }, ?_, rfl, rfl⟩
        simp [Response.set_cookie]
      · intro r2 hr2
        cases hr2
        refine ⟨{ name := cfg.AUTH_COOKIE ++ "_refresh", value := r, expires := some expires,
                  domain := cfg.AUTH_COOKIE_DOMAIN, path := refreshRoute,
                  secure := cfg.AUTH_COOKIE_SECURE, httponly := true,
                  samesite := some cfg.AUTH_COOKIE_SAMESITE }, ?_, rfl, rfl⟩
        simp [Response.set_cookie]
      · intro hnone
        exact absurd hnone (by simp)
  · intro t ht
    refine ⟨resp.set_cookie
        { name := cfg.AUTH_COOKIE, value := t,
          expires := some (now + cfg.REFRESH_TOKEN_LIFETIME),
          domain := cfg.AUTH_COOKIE_DOMAIN, path := cfg.AUTH_COOKIE_PATH,
          secure := cfg.AUTH_COOKIE_SECURE, httponly := true,
          samesite := some cfg.AUTH_COOKIE_SAMESITE }, ?_, ?_⟩
    · simp [SlidingTokenCookieViewMixin.set_auth_cookies, ht]
    · intro c hc
      simp [Response.set_cookie] at hc
      simp [hc]

/-- Witness for C7: concrete pair payload and sliding payload under
`cfgW`. -/
theorem C7_witness :
    (∃ resp2, TokenCookieViewMixin.set_auth_cookies cfgW "/api/token/refresh/" 1000
        { body := [], status := 200, cookies := [] }
        [("access", "A"), ("refresh", "R"), ("token", "S")] = some resp2 ∧
      (∀ c ∈ resp2.cookies.drop (0 : Nat),
        c.httponly = true ∧ c.domain = cfgW.AUTH_COOKIE_DOMAIN ∧
        c.samesite = some cfgW.AUTH_COOKIE_SAMESITE ∧ c.secure = cfgW.AUTH_COOKIE_SECURE) ∧
      (∃ c ∈ resp2.cookies.drop (0 : Nat), c.name = cfgW.AUTH_COOKIE ∧ c.value = "A") ∧
      (∀ r, dget [("access", "A"), ("refresh", "R"), ("token", "S")] "refresh" = some r →
        ∃ c ∈ resp2.cookies.drop (0 : Nat),
          c.name = cfgW.AUTH_COOKIE ++ "_refresh" ∧ c.value = r) ∧
      (dget [("access", "A"), ("refresh", "R"), ("token", "S")] "refresh" = none →
        (resp2.cookies.drop (0 : Nat)).length = 1)) ∧
    (∃ resp3, SlidingTokenCookieViewMixin.set_auth_cookies cfgW 1000
        { body := [], status := 200, cookies := [] }
        [("access", "A"), ("refresh", "R"), ("token", "S")] = some resp3 ∧
      ∀ c ∈ resp3.cookies.drop (0 : Nat),
        c.httponly = true ∧ c.domain = cfgW.AUTH_COOKIE_DOMAIN ∧
        c.samesite = some cfgW.AUTH_COOKIE_SAMESITE ∧ c.secure = cfgW.AUTH_COOKIE_SECURE) :=
  ⟨(C7_cookie_attributes cfgW "/api/token/refresh/" 1000 1000
      [("access", "A"), ("refresh", "R"), ("token", "S")]
      { body := [], status := 200, cookies := [] }).1 "A" rfl,
   (C7_cookie_attributes cfgW "/api/token/refresh/" 1000 1000
      [("access", "A"), ("refresh", "R"), ("token", "S")]
      { body := [], status := 200, cookies := [] }).2 "S" rfl⟩

/-- C8: in sliding cookie transport, extraction reads the cookie named
exactly `AUTH_COOKIE` (no `_refresh` suffix) and injects it under
`"token"`; the sliding `set_auth_cookies` writes exactly one cookie, under
that same unsuffixed name, expiring at `now + REFRESH_TOKEN_LIFETIME`, and
its output does not depend on `ROTATE_REFRESH_TOKENS`. -/
theorem C8_sliding_cookie_name_and_expiry (cfg : ApiSettings) (now : Int)
    (req : Request) (data : Dict) (resp : Response) :
    (∀ t, req.data = [] → dget req.COOKIES cfg.AUTH_COOKIE = some t → t ≠ "" →
      SlidingTokenCookieViewMixin.extract_token_from_cookie cfg req =
        .ok { req with data := [("token", t)] }) ∧
    (∀ tok, dget data "token" = some tok →
      ∃ c : Cookie,
        SlidingTokenCookieViewMixin.set_auth_cookies cfg now resp data =
          some { resp with cookies := resp.cookies ++ [c] } ∧
        c.name = cfg.AUTH_COOKIE ∧ c.value = tok ∧
        c.expires = some (now + cfg.REFRESH_TOKEN_LIFETIME)) ∧
    (∀ b, SlidingTokenCookieViewMixin.set_auth_cookies
        { cfg with ROTATE_REFRESH_TOKENS := b } now resp data =
      SlidingTokenCookieViewMixin.set_auth_cookies cfg now resp data) := by
  refine ⟨?_, ?_, ?_⟩
  · intro t h ht htne
    simp [SlidingTokenCookieViewMixin.extract_token_from_cookie, h, ht, htne, dset]
  · intro tok htok
    refine ⟨{ name := cfg.AUTH_COOKIE, value := tok,
              expires := some (now + cfg.REFRESH_TOKEN_LIFETIME),
              domain := cfg.AUTH_COOKIE_DOMAIN, path := cfg.AUTH_COOKIE_PATH,
              secure := cfg.AUTH_COOKIE_SECURE, httponly := true,
              samesite := some cfg.AUTH_COOKIE_SAMESITE }, ?_, rfl, rfl, rfl⟩
    simp [SlidingTokenCookieViewMixin.set_auth_cookies, htok, Response.set_cookie]
  · intro b
    cases hd : dget data "token" <;>
      simp [SlidingTokenCookieViewMixin.set_auth_cookies, hd]

/-- Witness for C8: the sliding cookie of `cfgW` round-trips on a concrete
request and payload. -/
theorem C8_witness :
    SlidingTokenCookieViewMixin.extract_token_from_cookie cfgW
      { data := [], COOKIES := [("auth", "S1")] } =
      .ok { data := [("token", "S1")], COOKIES := [("auth", "S1")] } ∧
    (∃ c : Cookie,
      SlidingTokenCookieViewMixin.set_auth_cookies cfgW 1000
        { body := [], status := 200, cookies := [] } [("token", "S1")] =
        some { body := [], status := 200, cookies := [] ++ [c] } ∧
      c.name = cfgW.AUTH_COOKIE ∧ c.value = "S1" ∧
      c.expires = some (1000 + cfgW.REFRESH_TOKEN_LIFETIME)) :=
  ⟨(C8_sliding_cookie_name_and_expiry cfgW 1000
      { data := [], COOKIES := [("auth", "S1")] } [("token", "S1")]
      { body := [], status := 200, cookies := [] }).1 "S1" rfl rfl (by decide),
   (C8_sliding_cookie_name_and_expiry cfgW 1000
      { data := [], COOKIES := [("auth", "S1")] } [("token", "S1")]
      { body := [], status := 200, cookies := [] }).2.1 "S1" rfl⟩

/-- C10: the pair mixin computes one expiration per response and stamps it
on both the access and the refresh cookie, so their expirations are
identical; at obtain, that shared expiration is
`now + REFRESH_TOKEN_LIFETIME` (the refresh lifetime, never
`ACCESS_TOKEN_LIFETIME`). -/
theorem C10_access_and_refresh_cookie_share_expiration (cfg : ApiSettings)
    (refreshRoute : String) (expires : Int) (resp : Response) (data : Dict)
    (a r : String) (ha : dget data "access" = some a)
    (hr : dget data "refresh" = some r) :
    (∃ ca cr : Cookie,
      TokenCookieViewMixin.set_auth_cookies cfg refreshRoute expires resp data =
        some { resp with cookies := resp.cookies ++ [ca, cr] } ∧
      ca.name = cfg.AUTH_COOKIE ∧ cr.name = cfg.AUTH_COOKIE ++ "_refresh" ∧
      ca.expires = some expires ∧ cr.expires = some expires) ∧
    (∀ (now : Int) (serializer : Dict → SerializerResult) (req : Request),
      cfg.AUTH_COOKIE ≠ "" → serializer req.data = .ok data →
      ∃ ca cr : Cookie,
        TokenObtainPairView.post cfg refreshRoute now serializer req =
          .success { body := data, status := 200, cookies := [ca, cr] } true ∧
        ca.expires = cr.expires ∧
        ca.expires = some (now + cfg.REFRESH_TOKEN_LIFETIME)) := by
  constructor
  · refine ⟨{ name := cfg.AUTH_COOKIE, value := a, expires := some expires,
              domain := cfg.AUTH_COOKIE_DOMAIN, path := cfg.AUTH_COOKIE_PATH,
              secure := cfg.AUTH_COOKIE_SECURE, httponly := true,
              samesite := some cfg.AUTH_COOKIE_SAMESITE },
            { name := cfg.AUTH_COOKIE ++ "_refresh", value := r, expires := some expires,
              domain := cfg.AUTH_COOKIE_DOMAIN, path := refreshRoute,
              secure := cfg.AUTH_COOKIE_SECURE, httponly := true,
              samesite := some cfg.AUTH_COOKIE_SAMESITE }, ?_, rfl, rfl, rfl, rfl⟩
    simp [TokenCookieViewMixin.set_auth_cookies, ha, hr, Response.set_cookie]
  · intro now serializer req hc hs
    refine ⟨{ name := cfg.AUTH_COOKIE, value := a,
              expires := some (now + cfg.REFRESH_TOKEN_LIFETIME),
              domain := cfg.AUTH_COOKIE_DOMAIN, path := cfg.AUTH_COOKIE_PATH,
              secure := cfg.AUTH_COOKIE_SECURE, httponly := true,
              samesite := some cfg.AUTH_COOKIE_SAMESITE },
            { name := cfg.AUTH_COOKIE ++ "_refresh", value := r,
              expires := some (now + cfg.REFRESH_TOKEN_LIFETIME),
              domain := cfg.AUTH_COOKIE_DOMAIN, path := refreshRoute,
              secure := cfg.AUTH_COOKIE_SECURE, httponly := true,
              samesite := some cfg.AUTH_COOKIE_SAMESITE }, ?_, rfl, rfl⟩
    simp [TokenObtainPairView.post, TokenViewBase.post, hs, hc,
      TokenCookieViewMixin.set_auth_cookies,
      TokenCookieViewMixin.get_refresh_token_expiration, ha, hr, Response.set_cookie]

/-- Witness for C10: concrete payload with both tokens under `cfgW`; both
cookies of the obtain response expire at `now + REFRESH_TOKEN_LIFETIME`. -/
theorem C10_witness :
    (∃ ca cr : Cookie,
      TokenCookieViewMixin.set_auth_cookies cfgW "/api/token/refresh/" 777
        { body := [], status := 200, cookies := [] }
        [("access", "A"), ("refresh", "R")] =
        some { body := [], status := 200, cookies := [] ++ [ca, cr] } ∧
      ca.name = cfgW.AUTH_COOKIE ∧ cr.name = cfgW.AUTH_COOKIE ++ "_refresh" ∧
      ca.expires = some 777 ∧ cr.expires = some 777) ∧
    (∃ ca cr : Cookie,
      TokenObtainPairView.post cfgW "/api/token/refresh/" 1000
        (fun _ => .ok [("access", "A"), ("refresh", "R")])
        { data := [("username", "u"), ("password", "p")], COOKIES := [] } =
        .success { body := [("access", "A"), ("refresh", "R")], status := 200,
                   cookies := [ca, cr] } true ∧
      ca.expires = cr.expires ∧
      ca.expires = some (1000 + cfgW.REFRESH_TOKEN_LIFETIME)) :=
  ⟨(C10_access_and_refresh_cookie_share_expiration cfgW "/api/token/refresh/" 777
      { body := [], status := 200, cookies := [] }
      [("access", "A"), ("refresh", "R")] "A" "R" rfl rfl).1,
   (C10_access_and_refresh_cookie_share_expiration cfgW "/api/token/refresh/" 777
      { body := [], status := 200, cookies := [] }
      [("access", "A"), ("refresh", "R")] "A" "R" rfl rfl).2 1000
      (fun _ => .ok [("access", "A"), ("refresh", "R")])
      { data := [("username", "u"), ("password", "p")], COOKIES := [] }
      (by decide) rfl⟩

/-- C1: for a refresh request in cookie transport mode, the expiration
written to the refresh cookie is `now + REFRESH_TOKEN_LIFETIME` when
`ROTATE_REFRESH_TOKENS` is true, and exactly the `exp` claim re-parsed
from the incoming refresh token (as found in the request body after
cookie extraction) when it is false. -/
theorem C1_refresh_cookie_expiration_policy (cfg : ApiSettings) (env : TokenEnv)
    (refreshRoute : String) (now e : Int) (serializer : Dict → SerializerResult)
    (req req2 : Request) (data : Dict) (a r raw : String)
    (hc : cfg.AUTH_COOKIE ≠ "")
    (hex : TokenCookieViewMixin.extract_token_from_cookie cfg req = .ok req2)
    (hs : serializer req2.data = .ok data)
    (ha : dget data "access" = some a)
    (hr : dget data "refresh" = some r)
    (hin : dget req2.data "refresh" = some raw)
    (henv : env raw = some e) :
    ∃ ca cr : Cookie,
      TokenRefreshView.post cfg env refreshRoute now serializer req =
        .success { body := data, status := 200, cookies := [ca, cr] } true ∧
      cr.name = cfg.AUTH_COOKIE ++ "_refresh" ∧
      cr.expires = some (if cfg.ROTATE_REFRESH_TOKENS
        then now + cfg.REFRESH_TOKEN_LIFETIME else e) ∧
      ca.expires = cr.expires := by
  have hexp : TokenRefreshView.get_refresh_token_expiration cfg env now req2.data =
      some (if cfg.ROTATE_REFRESH_TOKENS
        then now + cfg.REFRESH_TOKEN_LIFETIME else e) := by
    cases hrot : cfg.ROTATE_REFRESH_TOKENS with
    | true =>
      simp [TokenRefreshView.get_refresh_token_expiration, hrot,
        TokenCookieViewMixin.get_refresh_token_expiration]
    | false =>
      simp [TokenRefreshView.get_refresh_token_expiration, hrot, hin, henv]
  refine ⟨{ name := cfg.AUTH_COOKIE, value := a,
            expires := some (if cfg.ROTATE_REFRESH_TOKENS
              then now + cfg.REFRESH_TOKEN_LIFETIME else e),
            domain := cfg.AUTH_COOKIE_DOMAIN, path := cfg.AUTH_COOKIE_PATH,
            secure := cfg.AUTH_COOKIE_SECURE, httponly := true,
            samesite := some cfg.AUTH_COOKIE_SAMESITE },
          { name := cfg.AUTH_COOKIE ++ "_refresh", value := r,
            expires := some (if cfg.ROTATE_REFRESH_TOKENS
              then now + cfg.REFRESH_TOKEN_LIFETIME else e),
            domain := cfg.AUTH_COOKIE_DOMAIN, path := refreshRoute,
            secure := cfg.AUTH_COOKIE_SECURE, httponly := true,
            samesite := some cfg.AUTH_COOKIE_SAMESITE }, ?_, rfl, rfl, rfl⟩
  simp [TokenRefreshView.post, hc, hex, TokenViewBase.post, hs, hexp,
    TokenCookieViewMixin.set_auth_cookies, ha, hr, Response.set_cookie]

/-- Witness for C1 at a rotation-off configuration: the refresh cookie
reuses the original token's `exp` claim 5000 (from `envW`), not
`now + REFRESH_TOKEN_LIFETIME`. -/
theorem C1_witness :
    ∃ ca cr : Cookie,
      TokenRefreshView.post cfgNoRotate envW "/api/token/refresh/" 1000 serW reqW =
        .success { body := [("access", "A2"), ("refresh", "R1")], status := 200,
                   cookies := [ca, cr] } true ∧
      cr.name = cfgNoRotate.AUTH_COOKIE ++ "_refresh" ∧
      cr.expires = some (if cfgNoRotate.ROTATE_REFRESH_TOKENS
        then 1000 + cfgNoRotate.REFRESH_TOKEN_LIFETIME else 5000) ∧
      ca.expires = cr.expires :=
  C1_refresh_cookie_expiration_policy cfgNoRotate envW "/api/token/refresh/" 1000 5000
    serW reqW reqW2 [("access", "A2"), ("refresh", "R1")] "A2" "R1" "R1"
    (by decide) rfl rfl rfl rfl rfl (by decide)

/-- A request whose body is non-empty but lacks the token field name,
while the refresh cookie is present in the jar. -/
def reqC2 : Request :=
  { data := [("username", "alice")], COOKIES := [("auth_refresh", "tok")] }

/-- C2 counterexample: under `cfgW`, `reqC2`'s body lacks `"refresh"` and
the `auth_refresh` cookie is present, yet extraction returns the request
unchanged — no cookie lookup and no injection happen, because the source
guards on the body being empty, not on the field being absent. -/
theorem C2_counterexample :
    dget reqC2.data "refresh" = none ∧
    dget reqC2.COOKIES (cfgW.AUTH_COOKIE ++ "_refresh") = some "tok" ∧
    TokenCookieViewMixin.extract_token_from_cookie cfgW reqC2 = .ok reqC2 :=
  ⟨by decide, by decide, rfl⟩

/-- C2 (amended): in cookie transport mode, extraction passes the request
through unchanged whenever the body is non-empty (even when it lacks the
token field name); only when the body is entirely empty is the token read
from the cookie named by the configured prefix plus the role suffix
(`"_refresh"` for the pair mixin, none for the sliding one) and injected
under the field name. -/
theorem C2_cookie_extraction_amended (cfg : ApiSettings) (req : Request) :
    (req.data ≠ [] →
      TokenCookieViewMixin.extract_token_from_cookie cfg req = .ok req ∧
      SlidingTokenCookieViewMixin.extract_token_from_cookie cfg req = .ok req) ∧
    (req.data = [] →
      (∀ t, dget req.COOKIES (cfg.AUTH_COOKIE ++ "_refresh") = some t → t ≠ "" →
        TokenCookieViewMixin.extract_token_from_cookie cfg req =
          .ok { req with data := dset req.data "refresh" t }) ∧
      (∀ t, dget req.COOKIES cfg.AUTH_COOKIE = some t → t ≠ "" →
        SlidingTokenCookieViewMixin.extract_token_from_cookie cfg req =
          .ok { req with data := dset req.data "token" t })) := by
  constructor
  · intro h
    constructor
    · simp [TokenCookieViewMixin.extract_token_from_cookie, List.isEmpty_iff, h]
    · simp [SlidingTokenCookieViewMixin.extract_token_from_cookie, List.isEmpty_iff, h]
  · intro h
    constructor
    · intro t ht htne
      simp [TokenCookieViewMixin.extract_token_from_cookie, h, ht, htne]
    · intro t ht htne
      simp [SlidingTokenCookieViewMixin.extract_token_from_cookie, h, ht, htne]

/-- Witness for C2 (amended): the non-empty body `reqC2` passes through
both mixins unchanged, and the empty-body `reqW` gets the cookie value
injected. -/
theorem C2_witness :
    (TokenCookieViewMixin.extract_token_from_cookie cfgW reqC2 = .ok reqC2 ∧
     SlidingTokenCookieViewMixin.extract_token_from_cookie cfgW reqC2 = .ok reqC2) ∧
    TokenCookieViewMixin.extract_token_from_cookie cfgW reqW =
      .ok { reqW with data := dset reqW.data "refresh" "R1" } :=
  ⟨(C2_cookie_extraction_amended cfgW reqC2).1 (by decide),
   ((C2_cookie_extraction_amended cfgW reqW).2 rfl).1 "R1" rfl (by decide)⟩

/-- C3 evaluated at the failing input `cfgW` (a deployment with
`AUTH_COOKIE_DOMAIN = "example.com"`): issuance writes the refresh cookie
with the configured domain, but the logout view's deletion cookie for the
same name carries domain `None` (`views.py` line 238 hardcodes it), so the
deletion's domain does not match the domain used at issuance. The access
cookie's deletion does match. Both deletion cookies carry the
already-expired timestamp. -/
theorem C3_refresh_delete_domain_mismatch :
    ((TokenCookieViewMixin.set_auth_cookies cfgW "/api/token/refresh/" 1000
        { body := [], status := 200, cookies := [] }
        [("access", "A"), ("refresh", "R")]).map
      (fun resp => resp.cookies.map (fun c => (c.name, c.domain, c.path)))) =
      some [("auth", some "example.com", "/api"),
            ("auth_refresh", some "example.com", "/api/token/refresh/")] ∧
    (TokenCookieDeleteView.post cfgW "/api/token/refresh/").cookies.map
      (fun c => (c.name, c.domain, c.path, c.expires)) =
      [("auth", some "example.com", "/api", some 0),
       ("auth_refresh", none, "/api/token/refresh/", some 0)] :=
  ⟨by decide, by decide⟩
